import Mathlib

/-!
Shallow embedding of the edge routing decision engine of the
`cusdomaino` repository: hostname-to-workspace resolution with an
in-memory TTL cache in front of a DynamoDB lookup store, request path
rewriting, and the two-phase host substitution via the `x-custom-host`
carrier header.

Embedded source files:
* `src/index.mjs` — cache-equipped resolver (namespace `IndexMjs`);
* `src/lambda-functions/domain-mapper-edge/index.mjs` — viewer-request
  resolver without cache (namespace `DomainMapperEdge`);
* `src/lambda-functions/origin-request-edge/index.mjs` — origin
  finalizer (namespace `OriginRequestEdge`);
* `src/unnamed/part_000` — origin finalizer draft with debug meta
  header injection (namespace `Part000`);
* `src/unnamed/part_001` (first handler) — cache-equipped resolver
  draft with the `transformRequest` helper (namespace `Part001`).
-/

/-! ### JavaScript string primitives

The handlers use `String.prototype.split` with a single-character
separator, `includes`, `startsWith`, `endsWith` and `toLowerCase`.
These are modelled over the character list of the Lean string.
-/

/-- `split` with a one-character separator, on character lists:
splitting `a-b` on the hyphen gives `[a, b]`, the empty string gives
one empty group, and `a-` gives `[a, empty]`. -/
def splitOnChar (c : Char) : List Char → List (List Char)
  | [] => [[]]
  | x :: xs =>
    if x = c then [] :: splitOnChar c xs
    else
      match splitOnChar c xs with
      | [] => [[x]]
      | g :: gs => (x :: g) :: gs

/-- JavaScript `s.split(c)` for a one-character separator. -/
def jsSplit (c : Char) (s : String) : List String :=
  (splitOnChar c s.data).map String.mk

/-- Whether `pat` occurs as a contiguous run inside `l`. -/
def isInfixB (pat : List Char) : List Char → Bool
  | [] => pat.isEmpty
  | c :: cs => pat.isPrefixOf (c :: cs) || isInfixB pat cs

/-- JavaScript `s.includes(pat)`. -/
def jsIncludes (s pat : String) : Bool :=
  isInfixB pat.data s.data

/-- JavaScript `s.startsWith(pre)`. -/
def jsStartsWith (s pre : String) : Bool :=
  pre.data.isPrefixOf s.data

/-- JavaScript `s.endsWith(post)`. -/
def jsEndsWith (s post : String) : Bool :=
  post.data.isSuffixOf s.data

/-- JavaScript `s.toLowerCase()` (ASCII range, which is all the
handlers rely on for hostnames). -/
def jsToLower (s : String) : String :=
  String.mk (s.data.map Char.toLower)

/-- Rendering of a possibly-`undefined` JavaScript string inside a
template literal: `undefined` prints as the text `"undefined"`. -/
def jsUndefToStr : Option String → String
  | none => "undefined"
  | some s => s

/-- JavaScript truthiness of a string-or-missing value: `undefined`,
`null` and the empty string are falsy. -/
def jsTruthy : Option String → Bool
  | none => false
  | some s => if s = "" then false else true

/-! ### Association maps

JavaScript objects keyed by strings (the CloudFront `headers` object
and the module-level `cache` object) are modelled as association
lists with first-match lookup; assignment replaces the binding in
place or appends, `delete` removes it.
-/

/-- Property read `o[n]` on a JavaScript object. -/
def aGet {α : Type} (n : String) : List (String × α) → Option α
  | [] => none
  | (k, v) :: t => if k = n then some v else aGet n t

/-- Property assignment `o[n] = v` on a JavaScript object. -/
def aSet {α : Type} (n : String) (v : α) : List (String × α) → List (String × α)
  | [] => [(n, v)]
  | (k, w) :: t => if k = n then (n, v) :: t else (k, w) :: aSet n v t

/-- Property removal `delete o[n]` on a JavaScript object. -/
def aDel {α : Type} (n : String) : List (String × α) → List (String × α)
  | [] => []
  | (k, w) :: t => if k = n then aDel n t else (k, w) :: aDel n t

theorem aGet_aSet_self {α : Type} (n : String) (v : α) (l : List (String × α)) :
    aGet n (aSet n v l) = some v := by
  induction l with
  | nil => simp [aGet, aSet]
  | cons p t ih =>
    obtain ⟨k, w⟩ := p
    by_cases h : k = n <;> simp [aGet, aSet, h, ih]

theorem aGet_aSet_ne {α : Type} {m n : String} (v : α) (l : List (String × α))
    (h : m ≠ n) : aGet m (aSet n v l) = aGet m l := by
  induction l with
  | nil => simp [aGet, aSet, Ne.symm h]
  | cons p t ih =>
    obtain ⟨k, w⟩ := p
    by_cases hk : k = n
    · subst hk
      simp [aGet, aSet, Ne.symm h]
    · simp [aGet, aSet, hk, ih]

theorem aGet_aDel_self {α : Type} (n : String) (l : List (String × α)) :
    aGet n (aDel n l) = none := by
  induction l with
  | nil => simp [aGet, aDel]
  | cons p t ih =>
    obtain ⟨k, w⟩ := p
    by_cases h : k = n <;> simp [aGet, aDel, h, ih]

theorem aGet_aDel_ne {α : Type} {m n : String} (l : List (String × α))
    (h : m ≠ n) : aGet m (aDel n l) = aGet m l := by
  induction l with
  | nil => simp [aDel]
  | cons p t ih =>
    obtain ⟨k, w⟩ := p
    by_cases hk : k = n
    · subst hk
      simp [aGet, aDel, Ne.symm h, ih]
    · simp [aGet, aDel, hk, ih]

/-! ### Data model -/

/-- CloudFront header map. Every header in the source is a singleton
`[{ key, value }]` array read through `[0].value`, so each header is
modelled as a single name/value binding (names are the lowercase map
keys). -/
abbrev Headers := List (String × String)

/-- The mutable per-request fields of a CloudFront `cf.request` that
the handlers read or write: `uri`, `headers`, and the custom origin
`domainName` (absent until a handler sets `request.origin`). -/
structure CFRequest where
  uri : String
  headers : Headers
  origin : Option String
deriving DecidableEq

/-- A response generated directly at the edge (`status`,
`statusDescription`, the `Content-Type` header value, `body`). -/
structure CFResponse where
  status : String
  statusDescription : String
  contentType : String
  body : String
deriving DecidableEq

/-- A `domain-workspace-mappings` record as read by `getItem`:
`workspaceId.S` and `status.S` are each optionally present. -/
structure Mapping where
  workspaceId : Option String
  status : Option String
deriving DecidableEq

/-- Outcome of one DynamoDB `getItem` call: success with an optional
item, or a thrown transport/availability error (`StoreUnavailable`). -/
inductive StoreOutcome where
  | ok (item : Option Mapping)
  | err
deriving DecidableEq

/-- One cache slot of the module-level `cache` object in
`src/index.mjs`: `workspaceId` (`null` for a negative entry) and the
absolute `expiry` timestamp in milliseconds. -/
structure CacheEntry where
  workspaceId : Option String
  expiry : Nat
deriving DecidableEq

/-- The module-level `cache` object: hostname-keyed map of entries. -/
abbrev Cache := List (String × CacheEntry)

/-- The return value of a handler: either the (possibly rewritten) request
forwarded onward, or a response generated at the edge. -/
inductive HandlerResult where
  | forward (r : CFRequest)
  | response (resp : CFResponse)
deriving DecidableEq

/-- The shared Amplify origin hostname hard-coded in every resolver
draft. -/
def newDomain : String := "master.d1ul468muq9dvs.amplifyapp.com"

/-- `CACHE_TTL = 300000` (five minutes in milliseconds). -/
def CACHE_TTL : Nat := 300000

/-- The 500 response of the resolver drafts in the `catch (dbError)` branch. -/
def dbErrorResponse : CFResponse :=
  ⟨"500", "Internal Server Error", "text/plain",
    "An error occurred while looking up the domain configuration"⟩

/-- The 500 response of the resolver drafts in the outer `catch` branch. -/
def genericErrorResponse : CFResponse :=
  ⟨"500", "Internal Server Error", "text/plain",
    "An error occurred processing your request"⟩

/-- The guard that an item exists, has a truthy `workspaceId.S`, and has
`status.S` strictly equal to `active`, shared by the resolver drafts,
returned as the usable workspace id when the item passes it (a falsy —
missing or empty — `workspaceId.S`, or any other `status.S`, fails the
guard). -/
def itemActiveWorkspace : Option Mapping → Option String
  | none => none
  | some m =>
    match m.workspaceId with
    | none => none
    | some w =>
      if w = "" then none
      else if m.status = some "active" then some w else none

namespace OriginRequestEdge

/-- `src/lambda-functions/origin-request-edge/index.mjs` `handler`:
when the `x-custom-host` carrier is present with a truthy value, set
the `host` header to it and delete the carrier; otherwise pass the
request through unchanged. -/
def handler (r : CFRequest) : CFRequest :=
  match aGet "x-custom-host" r.headers with
  | none => r
  | some ch =>
    if ch = "" then r
    else { r with headers := aDel "x-custom-host" (aSet "host" ch r.headers) }

end OriginRequestEdge

namespace Part000

/-- One property of the `JSON.stringify`-ed debug-info object of
`src/unnamed/part_000`: a property whose value is `undefined` is
omitted from the output. -/
def debugField (name : String) : Option String → List String
  | none => []
  | some v => ["\"" ++ name ++ "\":\"" ++ v ++ "\""]

/-- The `JSON.stringify(debugInfo)` value placed into
`x-amz-meta-debug` by `src/unnamed/part_000`. -/
def debugInfoJson (hs : Headers) : String :=
  "\x7b" ++ String.intercalate ","
    (debugField "x-debug-workspace" (aGet "x-debug-workspace" hs) ++
     debugField "x-debug-original-uri" (aGet "x-debug-original-uri" hs) ++
     debugField "x-debug-transformed-uri" (aGet "x-debug-transformed-uri" hs)) ++ "\x7d"

/-- `src/unnamed/part_000` `handler`: substitute the carrier into the
`host` header when the carrier key is present, then, for URIs ending
in `/` or `index.html`, attach an `x-amz-meta-debug` header holding
the debug info. -/
def handler (r : CFRequest) : CFRequest :=
  let r1 :=
    match aGet "x-custom-host" r.headers with
    | none => r
    | some ch => { r with headers := aDel "x-custom-host" (aSet "host" ch r.headers) }
  if jsEndsWith r1.uri "/" || jsEndsWith r1.uri "index.html" then
    { r1 with headers := aSet "x-amz-meta-debug" (debugInfoJson r1.headers) r1.headers }
  else r1

end Part000

namespace DomainMapperEdge

/-- The regex test `requestUri.match(/^\/workspace-\d+/)`: the URI
starts with `/workspace-` followed by at least one digit
(`"/workspace-"` is 11 characters long). -/
def hasWorkspaceSeg (uri : String) : Bool :=
  jsStartsWith uri "/workspace-" &&
    (match uri.data.drop 11 with
     | [] => false
     | c :: _ => c.isDigit)

/-- `createNotFoundResponse` of `domain-mapper-edge/index.mjs`. -/
def createNotFoundResponse (host : String) : CFResponse :=
  ⟨"404", "Not Found", "text/plain", "Domain " ++ host ++ " is not configured"⟩

/-- Lines 101–147 of `domain-mapper-edge/index.mjs`: deep-copy the
request, ensure the URI starts with `/`, prepend
`/workspace-<number>` with `<number> = workspaceId.split('-')[1]`
unless the URI already carries a workspace segment, drop the URI text
entirely when it equals `/`, then set the `x-custom-host` carrier and
the two debug headers. -/
def transform (r : CFRequest) (workspaceId : String) : CFRequest :=
  let requestUri := if jsStartsWith r.uri "/" then r.uri else "/" ++ r.uri
  let workspaceNumber := jsUndefToStr (jsSplit '-' workspaceId)[1]?
  let newUri :=
    if hasWorkspaceSeg requestUri then requestUri
    else "/workspace-" ++ workspaceNumber ++ (if requestUri = "/" then "" else requestUri)
  { r with
    uri := newUri,
    headers :=
      aSet "x-debug-original-uri" r.uri
        (aSet "x-debug-workspace" workspaceId
          (aSet "x-custom-host" newDomain r.headers)) }

/-- Result of one `domain-mapper-edge` invocation together with the
number of DynamoDB reads it issued. -/
structure Step where
  result : HandlerResult
  storeReads : Nat
deriving DecidableEq

/-- `domain-mapper-edge/index.mjs` `handler`, as a function of the
request and of the outcome the DynamoDB `getItem` call would produce:
missing or empty host header → generic 500; a host containing
`amplifyapp.com` passes through untouched; otherwise a single store
read decides between the 404, the 500 and the transformed request.
This draft keeps no cache, so every invocation that reaches the
lookup issues one read. -/
def handler (r : CFRequest) (store : StoreOutcome) : Step :=
  match aGet "host" r.headers with
  | none => ⟨.response genericErrorResponse, 0⟩
  | some h0 =>
    if h0 = "" then ⟨.response genericErrorResponse, 0⟩
    else
      let host := jsToLower h0
      if jsIncludes host "amplifyapp.com" then ⟨.forward r, 0⟩
      else
        match store with
        | .err => ⟨.response dbErrorResponse, 1⟩
        | .ok item =>
          match itemActiveWorkspace item with
          | none => ⟨.response (createNotFoundResponse host), 1⟩
          | some w => ⟨.forward (transform r w), 1⟩

end DomainMapperEdge

namespace Part001

/-- `transformRequest` of the first draft in `src/unnamed/part_001`
(lines 185–227): root `/` becomes `/<workspaceId>/`, any other URI is
prefixed with `/<workspaceId>`; the custom origin and the `host`
header are set to the shared Amplify domain. -/
def transformRequest (r : CFRequest) (workspaceId : String) : CFRequest :=
  let requestUri := if jsStartsWith r.uri "/" then r.uri else "/" ++ r.uri
  let newUri :=
    if requestUri = "/" then "/" ++ workspaceId ++ "/"
    else "/" ++ workspaceId ++ requestUri
  { r with
    uri := newUri,
    origin := some newDomain,
    headers := aSet "host" newDomain r.headers }

end Part001

namespace IndexMjs

/-- `createNotFoundResponse` of `src/index.mjs` (its body also points
at the VE.AI dashboard). -/
def createNotFoundResponse (host : String) : CFResponse :=
  ⟨"404", "Not Found", "text/plain",
    "Domain " ++ host ++
      " is not configured. Please check your domain settings in the VE.AI dashboard."⟩

/-- Lines 149–167 of `src/index.mjs`: set the custom origin and the
`host` header to the shared Amplify domain and prefix the URI with
`/<workspaceId>`. -/
def transform (r : CFRequest) (workspaceId : String) : CFRequest :=
  { r with
    uri := "/" ++ workspaceId ++ r.uri,
    origin := some newDomain,
    headers := aSet "host" newDomain r.headers }

/-- The guard `cache[host] && cache[host].expiry > Date.now()` of the
cache-hit branch: the fresh entry, when there is one. -/
def freshLookup (host : String) (now : Nat) (c : Cache) : Option CacheEntry :=
  match aGet host c with
  | none => none
  | some e => if now < e.expiry then some e else none

/-- Result of one `src/index.mjs` invocation: handler result, cache
after the invocation, and how many DynamoDB reads it issued. -/
structure Step where
  result : HandlerResult
  cache : Cache
  storeReads : Nat
deriving DecidableEq

/-- `src/index.mjs` `handler` as a state transformer on the
module-level cache, parameterized by the current time and by the
outcome a DynamoDB `getItem` call would produce: missing or empty
host → generic 500; hosts containing `amplifyapp.com` pass through;
hosts ending in `ve.ai` resolve to their first DNS label without any
cache or store access; all other hosts go through the cache and, on a
miss or stale entry, through one store read that refills the cache
(positively or negatively) except on store failure. -/
def handler (r : CFRequest) (store : StoreOutcome) (now : Nat) (cache : Cache) : Step :=
  match aGet "host" r.headers with
  | none => ⟨.response genericErrorResponse, cache, 0⟩
  | some h0 =>
    if h0 = "" then ⟨.response genericErrorResponse, cache, 0⟩
    else
      let host := jsToLower h0
      if jsIncludes host "amplifyapp.com" then ⟨.forward r, cache, 0⟩
      else if jsEndsWith host "ve.ai" then
        ⟨.forward (transform r (jsUndefToStr (jsSplit '.' host)[0]?)), cache, 0⟩
      else
        match freshLookup host now cache with
        | some e =>
          if jsTruthy e.workspaceId then
            ⟨.forward (transform r (jsUndefToStr e.workspaceId)), cache, 0⟩
          else ⟨.response (createNotFoundResponse host), cache, 0⟩
        | none =>
          match store with
          | .err => ⟨.response dbErrorResponse, cache, 1⟩
          | .ok item =>
            match itemActiveWorkspace item with
            | none =>
              ⟨.response (createNotFoundResponse host),
               aSet host ⟨none, now + CACHE_TTL⟩ cache, 1⟩
            | some w =>
              ⟨.forward (transform r w), aSet host ⟨some w, now + CACHE_TTL⟩ cache, 1⟩

end IndexMjs

/-! ### Helper lemmas -/

/-- The URI of a forwarded request, when the handler forwarded one. -/
def resultUri : HandlerResult → Option String
  | .forward r => some r.uri
  | .response _ => none

theorem splitOnChar_of_not_mem {c : Char} {l : List Char} (h : ∀ x ∈ l, x ≠ c) :
    splitOnChar c l = [l] := by
  induction l with
  | nil => rfl
  | cons x xs ih =>
    have hx : x ≠ c := h x (List.mem_cons_self x xs)
    have ihh := ih fun y hy => h y (List.mem_cons_of_mem x hy)
    simp [splitOnChar, hx, ihh]

/-- `w.split('-')` is the singleton `[w]` when `w` has no hyphen. -/
theorem jsSplit_of_not_mem {c : Char} {w : String} (h : ∀ x ∈ w.data, x ≠ c) :
    jsSplit c w = [w] := by
  simp [jsSplit, splitOnChar_of_not_mem h]

/-- The active guard of the resolvers only passes non-empty workspace ids. -/
theorem itemActiveWorkspace_ne_empty {item : Option Mapping} {w : String}
    (h : itemActiveWorkspace item = some w) : w ≠ "" := by
  cases item with
  | none => simp [itemActiveWorkspace] at h
  | some m =>
    cases hm : m.workspaceId with
    | none => simp [itemActiveWorkspace, hm] at h
    | some v =>
      by_cases he : v = ""
      · simp [itemActiveWorkspace, hm, he] at h
      · by_cases hs : m.status = some "active"
        · simp [itemActiveWorkspace, hm, he, hs] at h
          subst h; exact he
        · simp [itemActiveWorkspace, hm, he, hs] at h

/-- A cache slot that is already missing or stale stays missing or
stale at any later time. -/
theorem freshLookup_none_mono {host : String} {now now2 : Nat} {c : Cache}
    (hle : now ≤ now2) (h : IndexMjs.freshLookup host now c = none) :
    IndexMjs.freshLookup host now2 c = none := by
  unfold IndexMjs.freshLookup at h ⊢
  cases hg : aGet host c with
  | none => rfl
  | some e =>
    rw [hg] at h
    by_cases hlt : now < e.expiry
    · simp [hlt] at h
    · have : ¬now2 < e.expiry := fun hc => hlt (lt_of_le_of_lt hle hc)
      simp [this]

/-! ### Claims -/

/-- C8: for every request whose (lowercased) host header contains the
platform default pattern `amplifyapp.com`, both resolver drafts return
the request forwarded byte-for-byte unchanged, perform zero store
reads, and (in `src/index.mjs`) leave the cache untouched. -/
theorem c8_amplify_pass_through (r : CFRequest) (h0 : String)
    (store store' : StoreOutcome) (now : Nat) (cache : Cache)
    (hhost : aGet "host" r.headers = some h0) (hne : h0 ≠ "")
    (hamp : jsIncludes (jsToLower h0) "amplifyapp.com" = true) :
    IndexMjs.handler r store now cache = ⟨.forward r, cache, 0⟩ ∧
    DomainMapperEdge.handler r store' = ⟨.forward r, 0⟩ := by
  constructor
  · unfold IndexMjs.handler
    rw [hhost]
    simp [hne, hamp]
  · unfold DomainMapperEdge.handler
    rw [hhost]
    simp [hne, hamp]

/-- Witness for C8 at the shared Amplify origin hostname itself. -/
theorem c8_amplify_pass_through_witness :
    IndexMjs.handler ⟨"/a", [("host", "master.d1ul468muq9dvs.amplifyapp.com")], none⟩
        (.ok none) 0 []
      = ⟨.forward ⟨"/a", [("host", "master.d1ul468muq9dvs.amplifyapp.com")], none⟩, [], 0⟩ ∧
    DomainMapperEdge.handler ⟨"/a", [("host", "master.d1ul468muq9dvs.amplifyapp.com")], none⟩
        (.ok none)
      = ⟨.forward ⟨"/a", [("host", "master.d1ul468muq9dvs.amplifyapp.com")], none⟩, 0⟩ :=
  c8_amplify_pass_through _ "master.d1ul468muq9dvs.amplifyapp.com" _ _ _ _
    (by decide) (by decide) (by decide)

/-- C10: in `src/index.mjs`, every host whose lowercased form ends in
`ve.ai` (and does not contain `amplifyapp.com`) is resolved to the
substring before the first `.` of the hostname and transformed
immediately: the result is the same for every store outcome, the cache
is neither read nor written, and zero store reads happen. -/
theorem c10_veai_bypasses_store (r : CFRequest) (h0 : String)
    (store : StoreOutcome) (now : Nat) (cache : Cache)
    (hhost : aGet "host" r.headers = some h0) (hne : h0 ≠ "")
    (hamp : jsIncludes (jsToLower h0) "amplifyapp.com" = false)
    (hve : jsEndsWith (jsToLower h0) "ve.ai" = true) :
    IndexMjs.handler r store now cache =
      ⟨.forward (IndexMjs.transform r (jsUndefToStr (jsSplit '.' (jsToLower h0))[0]?)),
       cache, 0⟩ := by
  unfold IndexMjs.handler
  rw [hhost]
  simp [hne, hamp, hve]

/-- Witness for C10 at `workspace-1.ve.ai`, path `/dashboard`. -/
theorem c10_veai_bypasses_store_witness :
    IndexMjs.handler ⟨"/dashboard", [("host", "workspace-1.ve.ai")], none⟩ .err 0 []
      = ⟨.forward (IndexMjs.transform ⟨"/dashboard", [("host", "workspace-1.ve.ai")], none⟩
          (jsUndefToStr (jsSplit '.' (jsToLower "workspace-1.ve.ai"))[0]?)), [], 0⟩ :=
  c10_veai_bypasses_store _ "workspace-1.ve.ai" _ _ _
    (by decide) (by decide) (by decide) (by decide)

/-- C9: in `domain-mapper-edge`, an active mapping whose workspaceId
has no hyphen (an opaque token) makes `workspaceId.split('-')[1]`
come out `undefined`, so a path without an explicit workspace segment
is rewritten to begin with the literal `/workspace-undefined`. -/
theorem c9_opaque_workspace_undefined (r : CFRequest) (h0 w : String)
    (hhost : aGet "host" r.headers = some h0) (hne : h0 ≠ "")
    (hamp : jsIncludes (jsToLower h0) "amplifyapp.com" = false)
    (hw : w ≠ "") (hdash : ∀ x ∈ w.data, x ≠ '-')
    (hseg : DomainMapperEdge.hasWorkspaceSeg
      (if jsStartsWith r.uri "/" then r.uri else "/" ++ r.uri) = false) :
    DomainMapperEdge.handler r (.ok (some ⟨some w, some "active"⟩)) =
      ⟨.forward (DomainMapperEdge.transform r w), 1⟩ ∧
    (DomainMapperEdge.transform r w).uri =
      "/workspace-undefined" ++
        (if (if jsStartsWith r.uri "/" then r.uri else "/" ++ r.uri) = "/" then ""
         else if jsStartsWith r.uri "/" then r.uri else "/" ++ r.uri) := by
  have hsplit : jsSplit '-' w = [w] := jsSplit_of_not_mem hdash
  have happ : ("/workspace-" ++ "undefined" : String) = "/workspace-undefined" := by decide
  constructor
  · unfold DomainMapperEdge.handler
    rw [hhost]
    simp [hne, hamp, itemActiveWorkspace, hw]
  · unfold DomainMapperEdge.transform
    simp only [hsplit]
    simp [hseg, jsUndefToStr, happ]

/-- Witness for C9 at the opaque workspace id `spandantest` of the
example item of the deployment guide, path `/gallery`. -/
theorem c9_opaque_workspace_undefined_witness :
    DomainMapperEdge.handler ⟨"/gallery", [("host", "gallery.client.com")], none⟩
        (.ok (some ⟨some "spandantest", some "active"⟩)) =
      ⟨.forward (DomainMapperEdge.transform
        ⟨"/gallery", [("host", "gallery.client.com")], none⟩ "spandantest"), 1⟩ ∧
    (DomainMapperEdge.transform ⟨"/gallery", [("host", "gallery.client.com")], none⟩
        "spandantest").uri =
      "/workspace-undefined" ++
        (if (if jsStartsWith "/gallery" "/" then "/gallery" else "/" ++ "/gallery") = "/" then ""
         else if jsStartsWith "/gallery" "/" then "/gallery" else "/" ++ "/gallery") :=
  c9_opaque_workspace_undefined _ "gallery.client.com" "spandantest"
    (by decide) (by decide) (by decide) (by decide) (by decide) (by decide)

/-- C7: a store item that exists but fails the active guard produces a
handler outcome identical, in every component, to the outcome for a
missing item — in `src/index.mjs` (same response, same negative cache
write, same single read) and in `domain-mapper-edge`. -/
theorem c7_inactive_equals_absent (item : Option Mapping)
    (hin : itemActiveWorkspace item = none) :
    (∀ r now cache, IndexMjs.handler r (.ok item) now cache
        = IndexMjs.handler r (.ok none) now cache) ∧
    (∀ r, DomainMapperEdge.handler r (.ok item)
        = DomainMapperEdge.handler r (.ok none)) := by
  constructor
  · intro r now cache
    unfold IndexMjs.handler
    cases haG : aGet "host" r.headers with
    | none => rfl
    | some h0 =>
      by_cases h1 : h0 = ""
      · simp [h1]
      · by_cases h2 : jsIncludes (jsToLower h0) "amplifyapp.com" = true
        · simp [h1, h2]
        · by_cases h3 : jsEndsWith (jsToLower h0) "ve.ai" = true
          · simp [h1, h2, h3]
          · simp only [h1, h2, h3, if_false, if_neg]
            cases hf : IndexMjs.freshLookup (jsToLower h0) now cache with
            | some e => rfl
            | none =>
              dsimp only
              rw [hin]
              rfl
  · intro r
    unfold DomainMapperEdge.handler
    cases haG : aGet "host" r.headers with
    | none => rfl
    | some h0 =>
      by_cases h1 : h0 = ""
      · simp [h1]
      · by_cases h2 : jsIncludes (jsToLower h0) "amplifyapp.com" = true
        · simp [h1, h2]
        · simp only [h1, h2, if_false, if_neg]
          rw [hin]
          rfl

/-- Witness for C7 at a `pending_validation` record. -/
theorem c7_inactive_equals_absent_witness :
    IndexMjs.handler ⟨"/p", [("host", "pending.example.com")], none⟩
        (.ok (some ⟨some "workspace-7", some "pending_validation"⟩)) 5 []
      = IndexMjs.handler ⟨"/p", [("host", "pending.example.com")], none⟩ (.ok none) 5 [] ∧
    DomainMapperEdge.handler ⟨"/p", [("host", "pending.example.com")], none⟩
        (.ok (some ⟨some "workspace-7", some "pending_validation"⟩))
      = DomainMapperEdge.handler ⟨"/p", [("host", "pending.example.com")], none⟩ (.ok none) :=
  ⟨(c7_inactive_equals_absent _ (by decide)).1 _ _ _,
   (c7_inactive_equals_absent _ (by decide)).2 _⟩

/-- C6: in `src/index.mjs`, a store failure (`StoreUnavailable`)
yields the fixed server-error response, leaves the cache byte-for-byte
untouched, and — since nothing was cached — a subsequent request for
the same hostname reaches the store again (one read), whatever its
outcome. -/
theorem c6_store_error_not_cached (r r2 : CFRequest) (h0 h2 : String)
    (store2 : StoreOutcome) (now now2 : Nat) (cache : Cache)
    (hhost : aGet "host" r.headers = some h0) (hne : h0 ≠ "")
    (hamp : jsIncludes (jsToLower h0) "amplifyapp.com" = false)
    (hve : jsEndsWith (jsToLower h0) "ve.ai" = false)
    (hfresh : IndexMjs.freshLookup (jsToLower h0) now cache = none)
    (hhost2 : aGet "host" r2.headers = some h2) (hne2 : h2 ≠ "")
    (hsame : jsToLower h2 = jsToLower h0)
    (hle : now ≤ now2) :
    IndexMjs.handler r .err now cache = ⟨.response dbErrorResponse, cache, 1⟩ ∧
    (IndexMjs.handler r2 store2 now2 cache).storeReads = 1 := by
  have hfresh2 : IndexMjs.freshLookup (jsToLower h0) now2 cache = none :=
    freshLookup_none_mono hle hfresh
  constructor
  · unfold IndexMjs.handler
    rw [hhost]
    simp [hne, hamp, hve, hfresh]
  · unfold IndexMjs.handler
    rw [hhost2]
    simp only [hsame]
    cases store2 with
    | err => simp [hne2, hamp, hve, hfresh2]
    | ok item =>
      cases hia : itemActiveWorkspace item with
      | none => simp [hne2, hamp, hve, hfresh2, hia]
      | some w => simp [hne2, hamp, hve, hfresh2, hia]

/-- Witness for C6: store failure at `gallery.example.com`, then an
immediate retry that reaches the store again. -/
theorem c6_store_error_not_cached_witness :
    IndexMjs.handler ⟨"/d", [("host", "gallery.example.com")], none⟩ .err 0 []
      = ⟨.response dbErrorResponse, [], 1⟩ ∧
    (IndexMjs.handler ⟨"/d", [("host", "gallery.example.com")], none⟩
        (.ok (some ⟨some "workspace-1", some "active"⟩)) 1 []).storeReads = 1 :=
  c6_store_error_not_cached _ _ "gallery.example.com" "gallery.example.com" _ 0 1 []
    (by decide) (by decide) (by decide) (by decide) (by decide)
    (by decide) (by decide) (by decide) (by decide)

/-- C2 counterexample: `domain-mapper-edge` keeps no cache, so the
second of two resolutions of the same active hostname performs one
store read again (two in total), not zero as the claim requires. -/
theorem c2_counterexample :
    (DomainMapperEdge.handler ⟨"/dashboard", [("host", "gallery.example.com")], none⟩
        (.ok (some ⟨some "workspace-1", some "active"⟩))).storeReads +
      (DomainMapperEdge.handler ⟨"/dashboard", [("host", "gallery.example.com")], none⟩
        (.ok (some ⟨some "workspace-1", some "active"⟩))).storeReads = 2 ∧
    ¬((DomainMapperEdge.handler ⟨"/dashboard", [("host", "gallery.example.com")], none⟩
        (.ok (some ⟨some "workspace-1", some "active"⟩))).storeReads = 0) := by decide

/-- C2 amended: the at-most-one-lookup property holds for the
cache-equipped resolver `src/index.mjs`: a first successful resolution
caches the workspace and performs the single store read, and a second
resolution of the same hostname within the TTL window is served from
the cache with zero store reads, whatever the store would answer;
`domain-mapper-edge` keeps no cache and re-reads the store on every
resolution. -/
theorem c2_amended (r1 r2 : CFRequest) (h1 h2 w : String)
    (item : Option Mapping) (store2 : StoreOutcome) (now1 now2 : Nat) (cache : Cache)
    (hhost1 : aGet "host" r1.headers = some h1) (hne1 : h1 ≠ "")
    (hamp : jsIncludes (jsToLower h1) "amplifyapp.com" = false)
    (hve : jsEndsWith (jsToLower h1) "ve.ai" = false)
    (hfresh : IndexMjs.freshLookup (jsToLower h1) now1 cache = none)
    (hactive : itemActiveWorkspace item = some w)
    (hhost2 : aGet "host" r2.headers = some h2) (hne2 : h2 ≠ "")
    (hsame : jsToLower h2 = jsToLower h1)
    (hwin : now2 < now1 + CACHE_TTL) :
    IndexMjs.handler r1 (.ok item) now1 cache =
      ⟨.forward (IndexMjs.transform r1 w),
       aSet (jsToLower h1) ⟨some w, now1 + CACHE_TTL⟩ cache, 1⟩ ∧
    IndexMjs.handler r2 store2 now2
        (aSet (jsToLower h1) ⟨some w, now1 + CACHE_TTL⟩ cache) =
      ⟨.forward (IndexMjs.transform r2 w),
       aSet (jsToLower h1) ⟨some w, now1 + CACHE_TTL⟩ cache, 0⟩ := by
  have hw : w ≠ "" := itemActiveWorkspace_ne_empty hactive
  constructor
  · unfold IndexMjs.handler
    rw [hhost1]
    simp [hne1, hamp, hve, hfresh, hactive]
  · have hf2 : IndexMjs.freshLookup (jsToLower h1) now2
        (aSet (jsToLower h1) ⟨some w, now1 + CACHE_TTL⟩ cache) =
        some ⟨some w, now1 + CACHE_TTL⟩ := by
      unfold IndexMjs.freshLookup
      rw [aGet_aSet_self]
      simp [hwin]
    unfold IndexMjs.handler
    rw [hhost2]
    simp [hne2, hsame, hamp, hve, hf2, jsTruthy, hw, jsUndefToStr]

/-- Witness for C2 amended: `gallery.example.com` resolved twice, the
second time 1000 ms later against a store that would fail. -/
theorem c2_amended_witness :
    IndexMjs.handler ⟨"/dashboard", [("host", "gallery.example.com")], none⟩
        (.ok (some ⟨some "workspace-1", some "active"⟩)) 0 [] =
      ⟨.forward (IndexMjs.transform
          ⟨"/dashboard", [("host", "gallery.example.com")], none⟩ "workspace-1"),
       aSet (jsToLower "gallery.example.com") ⟨some "workspace-1", 0 + CACHE_TTL⟩ [], 1⟩ ∧
    IndexMjs.handler ⟨"/dashboard", [("host", "gallery.example.com")], none⟩ .err 1000
        (aSet (jsToLower "gallery.example.com") ⟨some "workspace-1", 0 + CACHE_TTL⟩ []) =
      ⟨.forward (IndexMjs.transform
          ⟨"/dashboard", [("host", "gallery.example.com")], none⟩ "workspace-1"),
       aSet (jsToLower "gallery.example.com") ⟨some "workspace-1", 0 + CACHE_TTL⟩ [], 0⟩ :=
  c2_amended _ _ "gallery.example.com" "gallery.example.com" "workspace-1" _ _ 0 1000 []
    (by decide) (by decide) (by decide) (by decide) (by decide) (by decide)
    (by decide) (by decide) (by decide) (by decide)

/-- C5 counterexample: `domain-mapper-edge` caches nothing, so a
second request for an unmapped hostname performs one store read
again, not the zero the claim requires. -/
theorem c5_counterexample :
    (DomainMapperEdge.handler ⟨"/", [("host", "unknown.example.com")], none⟩
        (.ok none)).storeReads = 1 ∧
    ¬((DomainMapperEdge.handler ⟨"/", [("host", "unknown.example.com")], none⟩
        (.ok none)).storeReads = 0) := by decide

/-- C5 amended: the negative-caching property holds for the
cache-equipped resolver `src/index.mjs`: the first resolution of an
unmapped hostname writes a negative cache entry and returns the
not-configured response, and a second resolution within the TTL window
issues zero store reads and returns the identical response;
`domain-mapper-edge` writes no cache entry and re-reads the store on
every request. -/
theorem c5_amended (r1 r2 : CFRequest) (h1 h2 : String)
    (item : Option Mapping) (store2 : StoreOutcome) (now1 now2 : Nat) (cache : Cache)
    (hhost1 : aGet "host" r1.headers = some h1) (hne1 : h1 ≠ "")
    (hamp : jsIncludes (jsToLower h1) "amplifyapp.com" = false)
    (hve : jsEndsWith (jsToLower h1) "ve.ai" = false)
    (hfresh : IndexMjs.freshLookup (jsToLower h1) now1 cache = none)
    (hinactive : itemActiveWorkspace item = none)
    (hhost2 : aGet "host" r2.headers = some h2) (hne2 : h2 ≠ "")
    (hsame : jsToLower h2 = jsToLower h1)
    (hwin : now2 < now1 + CACHE_TTL) :
    IndexMjs.handler r1 (.ok item) now1 cache =
      ⟨.response (IndexMjs.createNotFoundResponse (jsToLower h1)),
       aSet (jsToLower h1) ⟨none, now1 + CACHE_TTL⟩ cache, 1⟩ ∧
    IndexMjs.handler r2 store2 now2 (aSet (jsToLower h1) ⟨none, now1 + CACHE_TTL⟩ cache) =
      ⟨.response (IndexMjs.createNotFoundResponse (jsToLower h1)),
       aSet (jsToLower h1) ⟨none, now1 + CACHE_TTL⟩ cache, 0⟩ := by
  constructor
  · unfold IndexMjs.handler
    rw [hhost1]
    simp [hne1, hamp, hve, hfresh, hinactive]
  · have hf2 : IndexMjs.freshLookup (jsToLower h1) now2
        (aSet (jsToLower h1) ⟨none, now1 + CACHE_TTL⟩ cache) =
        some ⟨none, now1 + CACHE_TTL⟩ := by
      unfold IndexMjs.freshLookup
      rw [aGet_aSet_self]
      simp [hwin]
    unfold IndexMjs.handler
    rw [hhost2]
    simp [hne2, hsame, hamp, hve, hf2, jsTruthy]

/-- Witness for C5 amended: `unknown.example.com` with no record,
requested again 1000 ms later against a store that would fail. -/
theorem c5_amended_witness :
    IndexMjs.handler ⟨"/", [("host", "unknown.example.com")], none⟩ (.ok none) 0 [] =
      ⟨.response (IndexMjs.createNotFoundResponse (jsToLower "unknown.example.com")),
       aSet (jsToLower "unknown.example.com") ⟨none, 0 + CACHE_TTL⟩ [], 1⟩ ∧
    IndexMjs.handler ⟨"/", [("host", "unknown.example.com")], none⟩ .err 1000
        (aSet (jsToLower "unknown.example.com") ⟨none, 0 + CACHE_TTL⟩ []) =
      ⟨.response (IndexMjs.createNotFoundResponse (jsToLower "unknown.example.com")),
       aSet (jsToLower "unknown.example.com") ⟨none, 0 + CACHE_TTL⟩ [], 0⟩ :=
  c5_amended _ _ "unknown.example.com" "unknown.example.com" _ _ 0 1000 []
    (by decide) (by decide) (by decide) (by decide) (by decide) (by decide)
    (by decide) (by decide) (by decide) (by decide)

/-- Right identity of string append, used for the root-path rewrite
shape of `domain-mapper-edge`. -/
theorem str_append_empty (s : String) : s ++ "" = s := by
  cases s with
  | mk l => show String.mk (l ++ []) = String.mk l
            rw [List.append_nil]

/-- C1 counterexample: with the active mapping `workspace-1`, the
`domain-mapper-edge` Resolver/Rewriter rewrites the root path `/` to
`/workspace-1` — without the trailing separator the claim requires. -/
theorem c1_counterexample :
    resultUri (DomainMapperEdge.handler ⟨"/", [("host", "gallery.example.com")], none⟩
        (.ok (some ⟨some "workspace-1", some "active"⟩))).result = some "/workspace-1" ∧
    ("/workspace-1" : String) ≠ "/workspace-1/" := by decide

/-- C1 amended: each conjunct against the draft that implements it.
`Part001.transformRequest` maps root `/` to `/w/` and any other
`/`-prefixed path `p` to `/w` + p (it never checks for an existing
workspace segment), while `domain-mapper-edge` leaves a path already
carrying an explicit workspace segment unmodified, rewrites any other
non-root path `p` to `/workspace-<n>` + p, and maps the root path `/`
to `/workspace-<n>` without the trailing separator. -/
theorem c1_amended (r : CFRequest) (w : String) :
    (r.uri = "/" → (Part001.transformRequest r w).uri = "/" ++ w ++ "/") ∧
    (jsStartsWith r.uri "/" = true → r.uri ≠ "/" →
      (Part001.transformRequest r w).uri = "/" ++ w ++ r.uri) ∧
    (jsStartsWith r.uri "/" = true → DomainMapperEdge.hasWorkspaceSeg r.uri = true →
      (DomainMapperEdge.transform r w).uri = r.uri) ∧
    (jsStartsWith r.uri "/" = true → r.uri ≠ "/" →
      DomainMapperEdge.hasWorkspaceSeg r.uri = false →
      (DomainMapperEdge.transform r w).uri =
        "/workspace-" ++ jsUndefToStr (jsSplit '-' w)[1]? ++ r.uri) ∧
    (r.uri = "/" →
      (DomainMapperEdge.transform r w).uri =
        "/workspace-" ++ jsUndefToStr (jsSplit '-' w)[1]?) := by
  have hroot : jsStartsWith "/" "/" = true := by decide
  have hsegroot : DomainMapperEdge.hasWorkspaceSeg "/" = false := by decide
  refine ⟨?_, ?_, ?_, ?_, ?_⟩
  · intro hu
    unfold Part001.transformRequest
    rw [hu]
    simp [hroot]
  · intro hs hne
    unfold Part001.transformRequest
    simp [hs, hne]
  · intro hs hseg
    unfold DomainMapperEdge.transform
    simp [hs, hseg]
  · intro hs hne hseg
    unfold DomainMapperEdge.transform
    simp [hs, hne, hseg]
  · intro hu
    unfold DomainMapperEdge.transform
    rw [hu]
    simp [hroot, hsegroot, str_append_empty]

/-- Witness for C1 amended at workspace `workspace-1` on the paths
`/`, `/static/app.js` and `/workspace-2/x`. -/
theorem c1_amended_witness :
    (Part001.transformRequest ⟨"/", [("host", "h")], none⟩ "workspace-1").uri
      = "/" ++ "workspace-1" ++ "/" ∧
    (Part001.transformRequest ⟨"/static/app.js", [("host", "h")], none⟩ "workspace-1").uri
      = "/" ++ "workspace-1" ++ "/static/app.js" ∧
    (DomainMapperEdge.transform ⟨"/workspace-2/x", [("host", "h")], none⟩ "workspace-1").uri
      = "/workspace-2/x" ∧
    (DomainMapperEdge.transform ⟨"/static/app.js", [("host", "h")], none⟩ "workspace-1").uri
      = "/workspace-" ++ jsUndefToStr (jsSplit '-' "workspace-1")[1]? ++ "/static/app.js" ∧
    (DomainMapperEdge.transform ⟨"/", [("host", "h")], none⟩ "workspace-1").uri
      = "/workspace-" ++ jsUndefToStr (jsSplit '-' "workspace-1")[1]? :=
  ⟨(c1_amended ⟨"/", [("host", "h")], none⟩ "workspace-1").1 rfl,
   (c1_amended ⟨"/static/app.js", [("host", "h")], none⟩ "workspace-1").2.1
     (by decide) (by decide),
   (c1_amended ⟨"/workspace-2/x", [("host", "h")], none⟩ "workspace-1").2.2.1
     (by decide) (by decide),
   (c1_amended ⟨"/static/app.js", [("host", "h")], none⟩ "workspace-1").2.2.2.1
     (by decide) (by decide) (by decide),
   (c1_amended ⟨"/", [("host", "h")], none⟩ "workspace-1").2.2.2.2 rfl⟩

/-- C3 counterexample: the `part_000` finalizer draft does more than
one substitution and one deletion — on a root-path request it also
attaches an `x-amz-meta-debug` header that the original request did
not carry. -/
theorem c3_counterexample :
    aGet "x-amz-meta-debug"
        (Part000.handler ⟨"/", [("host", "a"), ("x-custom-host", "b")], none⟩).headers
      = some "\x7b\x7d" ∧
    aGet "x-amz-meta-debug" ([("host", "a"), ("x-custom-host", "b")] : Headers) = none := by
  decide

/-- C3 amended: the deployed finalizer `origin-request-edge` performs
exactly the substitution and the deletion: with a non-empty carrier
present the forwarded host header equals the carrier, the carrier is
gone, and uri, origin and every other header are unchanged; with the
carrier absent the request is forwarded identically. The `part_000`
draft additionally attaches an `x-amz-meta-debug` header when the
forwarded uri ends in `/` (or `index.html`). -/
theorem c3_amended (r : CFRequest) (ch : String) :
    (aGet "x-custom-host" r.headers = some ch → ch ≠ "" →
      (OriginRequestEdge.handler r).uri = r.uri ∧
      (OriginRequestEdge.handler r).origin = r.origin ∧
      aGet "host" (OriginRequestEdge.handler r).headers = some ch ∧
      aGet "x-custom-host" (OriginRequestEdge.handler r).headers = none ∧
      (∀ n, n ≠ "host" → n ≠ "x-custom-host" →
        aGet n (OriginRequestEdge.handler r).headers = aGet n r.headers)) ∧
    (aGet "x-custom-host" r.headers = none → OriginRequestEdge.handler r = r) ∧
    (aGet "x-custom-host" r.headers = none → jsEndsWith r.uri "/" = true →
      aGet "x-amz-meta-debug" (Part000.handler r).headers
        = some (Part000.debugInfoJson r.headers)) := by
  refine ⟨?_, ?_, ?_⟩
  · intro hch hne
    unfold OriginRequestEdge.handler
    rw [hch]
    dsimp only
    rw [if_neg hne]
    refine ⟨rfl, rfl, ?_, ?_, ?_⟩
    · show aGet "host" (aDel "x-custom-host" (aSet "host" ch r.headers)) = some ch
      rw [aGet_aDel_ne _ (by decide), aGet_aSet_self]
    · exact aGet_aDel_self _ _
    · intro n hn1 hn2
      show aGet n (aDel "x-custom-host" (aSet "host" ch r.headers)) = aGet n r.headers
      rw [aGet_aDel_ne _ hn2, aGet_aSet_ne _ _ hn1]
  · intro hch
    unfold OriginRequestEdge.handler
    rw [hch]
  · intro hch hu
    unfold Part000.handler
    rw [hch]
    simp [hu, aGet_aSet_self]

/-- Witness for C3 amended: a carrier-bearing request, a carrier-free
request, and the `part_000` meta-header on a root-path request. -/
theorem c3_amended_witness :
    aGet "host" (OriginRequestEdge.handler
        ⟨"/x", [("host", "a"), ("x-custom-host", "b")], none⟩).headers = some "b" ∧
    aGet "x-custom-host" (OriginRequestEdge.handler
        ⟨"/x", [("host", "a"), ("x-custom-host", "b")], none⟩).headers = none ∧
    aGet "user-agent" (OriginRequestEdge.handler
        ⟨"/x", [("host", "a"), ("x-custom-host", "b")], none⟩).headers
      = aGet "user-agent" ([("host", "a"), ("x-custom-host", "b")] : Headers) ∧
    OriginRequestEdge.handler ⟨"/", [("host", "a")], none⟩ = ⟨"/", [("host", "a")], none⟩ ∧
    aGet "x-amz-meta-debug" (Part000.handler ⟨"/", [("host", "a")], none⟩).headers
      = some (Part000.debugInfoJson [("host", "a")]) :=
  ⟨((c3_amended ⟨"/x", [("host", "a"), ("x-custom-host", "b")], none⟩ "b").1
      (by decide) (by decide)).2.2.1,
   ((c3_amended ⟨"/x", [("host", "a"), ("x-custom-host", "b")], none⟩ "b").1
      (by decide) (by decide)).2.2.2.1,
   ((c3_amended ⟨"/x", [("host", "a"), ("x-custom-host", "b")], none⟩ "b").1
      (by decide) (by decide)).2.2.2.2 "user-agent" (by decide) (by decide),
   (c3_amended ⟨"/", [("host", "a")], none⟩ "b").2.1 (by decide),
   (c3_amended ⟨"/", [("host", "a")], none⟩ "b").2.2 (by decide) (by decide)⟩

/-- C4: host-header injection through the amplify pass-through — the
viewer-stage resolver returns the request with the attacker-supplied
`x-custom-host` untouched, and the origin finalizer then installs that
value as the outgoing host header, contrary to the carrier-stripping
requirement. -/
theorem c4_carrier_injection_bug :
    DomainMapperEdge.handler
        ⟨"/x", [("host", "foo.amplifyapp.com"), ("x-custom-host", "evil.example")], none⟩
        (.ok none)
      = ⟨.forward ⟨"/x", [("host", "foo.amplifyapp.com"), ("x-custom-host", "evil.example")],
          none⟩, 0⟩ ∧
    aGet "host" (OriginRequestEdge.handler
        ⟨"/x", [("host", "foo.amplifyapp.com"), ("x-custom-host", "evil.example")], none⟩).headers
      = some "evil.example" ∧
    aGet "host" ([("host", "foo.amplifyapp.com"), ("x-custom-host", "evil.example")] : Headers)
      = some "foo.amplifyapp.com" := by decide
